import Mathlib

/-!
Verification of the CodePulse measurement-orchestration core.

This file is a shallow embedding, in Lean 4, of the orchestration engine of
the CodePulse repository: the axis data model (`src/types/axis.ts`), the
measurement/report data model (`src/types/measurement.ts`,
`src/types/config.ts`), the adapter contract and registry
(`src/adapter/adapter.ts`, `src/adapter/registry.ts`), the orchestrator
(`src/orchestration/orchestrator.ts`) and the pure report transforms
(`src/orchestration/report-transforms.ts`).

Modelling conventions:
- TypeScript `Promise`s are erased: every adapter is stateless (per the
  design documents), so `checkAvailability` is a value and `measure` a pure
  function from inputs to a result.
- `Result<T, E>` is `Except E T` (`ok` / `error`).
- JavaScript numbers carried by metrics are modelled as `Int`; the claims
  under study only use their ordering and subtraction.
- A JavaScript `Map` is modelled as a key-ordered association list with
  insertion-order semantics: setting an existing key updates it in place,
  setting a new key appends.
- The wall-clock default timestamp (`new Date().toISOString()`) is passed in
  explicitly as `wallClock`.
- `AdapterError.cause` (of TypeScript type `unknown`) is omitted; no claim
  mentions it.
-/

namespace CodePulse

/-- The closed set of measurement axes, from `src/types/axis.ts` (`AxisId`). -/
inductive AxisId where
  | complexity
  | duplication
  | deadCode
  | size
  | dependencyHealth
  | security
  | consistency
  | testCoverage
  | documentation
deriving DecidableEq, Repr

/-- The string literal each `AxisId` constructor stands for in the source. -/
def axisIdString : AxisId → String
  | .complexity => "complexity"
  | .duplication => "duplication"
  | .deadCode => "dead-code"
  | .size => "size"
  | .dependencyHealth => "dependency-health"
  | .security => "security"
  | .consistency => "consistency"
  | .testCoverage => "test-coverage"
  | .documentation => "documentation"

/-- Static metadata of one axis, from `src/types/axis.ts` (`AxisDescriptor`). -/
structure AxisDescriptor where
  id : AxisId
  name : String
  description : String
deriving DecidableEq, Repr

/-- The `AXES` map of `src/types/axis.ts`, as its key-ordered entry list. -/
def AXES : List (AxisId × AxisDescriptor) :=
  [ (.complexity,
      { id := .complexity, name := "Complexity",
        description := "Cyclomatic/cognitive complexity per function and file" }),
    (.duplication,
      { id := .duplication, name := "Duplication",
        description := "Copy-paste detection across the codebase" }),
    (.deadCode,
      { id := .deadCode, name := "Dead Code",
        description := "Unused exports, unreachable code, orphaned files" }),
    (.size,
      { id := .size, name := "Size",
        description := "Lines of code, file count, function length distribution" }),
    (.dependencyHealth,
      { id := .dependencyHealth, name := "Dependency Health",
        description := "Dependency graph depth, circular dependencies" }),
    (.security,
      { id := .security, name := "Security",
        description := "Known vulnerability patterns (static only)" }),
    (.consistency,
      { id := .consistency, name := "Consistency",
        description := "Naming conventions, formatting uniformity" }),
    (.testCoverage,
      { id := .testCoverage, name := "Test Coverage",
        description := "Ratio of tested to untested code paths" }),
    (.documentation,
      { id := .documentation, name := "Documentation",
        description := "Presence and staleness of documentation artifacts" }) ]

/-- Metric metadata, from `src/types/measurement.ts` (`MetricDescriptor`). -/
structure MetricDescriptor where
  id : String
  name : String
  unit : String
  min : Int
  max : Option Int
  interpretationText : String
deriving DecidableEq, Repr

/-- A measured value with its descriptor (`MetricValue`). -/
structure MetricValue where
  descriptor : MetricDescriptor
  value : Int
deriving DecidableEq, Repr

/-- Metrics scoped to a single source file (`FileMeasurement`). -/
structure FileMeasurement where
  filePath : String
  metrics : List MetricValue
deriving DecidableEq, Repr

/-- One axis's result (`AxisMeasurement`).  `fileTotalCount` is the optional
pre-truncation file count written by `limitFiles` and read by the formatters;
it is absent (`none`) on measurements as produced by adapters. -/
structure AxisMeasurement where
  axisId : AxisId
  summary : List MetricValue
  files : List FileMeasurement
  fileTotalCount : Option Nat := none
deriving DecidableEq, Repr

/-- A warning about an axis that could not be measured (`AxisWarning`). -/
structure AxisWarning where
  axisId : AxisId
  message : String
deriving DecidableEq, Repr

/-- The top-level measurement report (`MeasurementReport`). -/
structure MeasurementReport where
  targetPath : String
  timestamp : String
  axes : List AxisMeasurement
  warnings : List AxisWarning
deriving DecidableEq, Repr

/-- Availability status of an external tool, from `src/adapter/adapter.ts`
(`ToolAvailability`). -/
inductive ToolAvailability where
  | available (version : String)
  | unavailable (reason : String)
deriving DecidableEq, Repr

/-- Error returned when an adapter fails to produce a measurement
(`AdapterError`; its `cause : unknown` field is omitted here). -/
structure AdapterError where
  adapterId : String
  message : String
deriving DecidableEq, Repr

/-- The contract every tool adapter fulfills (`ToolAdapter`).  Adapters are
stateless, so `checkAvailability` is a value and `measure` a pure function. -/
structure ToolAdapter where
  id : String
  toolName : String
  supportedAxes : List AxisId
  checkAvailability : ToolAvailability
  measure : String → AxisId → Except AdapterError AxisMeasurement

/-- The adapter registry, from `src/adapter/registry.ts`.  The private
`Map<string, ToolAdapter>` is modelled by its insertion-ordered value list
(`register` keeps ids unique, so ids never collide). -/
structure AdapterRegistry where
  adapters : List ToolAdapter

/-- Registers an adapter; errors if an adapter with the same id is already
registered (`AdapterRegistry.register`, which throws on duplicates). -/
def AdapterRegistry.register (r : AdapterRegistry) (adapter : ToolAdapter) :
    Except String AdapterRegistry :=
  if r.adapters.any (fun a => a.id == adapter.id) then
    Except.error ("Adapter with id \"" ++ adapter.id ++ "\" is already registered")
  else
    Except.ok { adapters := r.adapters ++ [adapter] }

/-- Finds all adapters supporting the given axis, in registration order
(`AdapterRegistry.getAdaptersForAxis`). -/
def getAdaptersForAxis (r : AdapterRegistry) (axisId : AxisId) : List ToolAdapter :=
  r.adapters.filter (fun a => decide (axisId ∈ a.supportedAxes))

/-- Looks an adapter up by id (`AdapterRegistry.getAdapter`). -/
def getAdapter (r : AdapterRegistry) (id : String) : Option ToolAdapter :=
  r.adapters.find? (fun a => a.id == id)

/-- Lists all registered adapter ids (`AdapterRegistry.getRegisteredIds`). -/
def getRegisteredIds (r : AdapterRegistry) : List String :=
  r.adapters.map ToolAdapter.id

/-- Supported output formats, from `src/types/config.ts` (`OutputFormat`). -/
inductive OutputFormat where
  | terminalCompact
  | terminalRich
  | json
  | html
deriving DecidableEq, Repr

/-- User-configurable thresholds for a single metric (`MetricThreshold`). -/
structure MetricThreshold where
  metricId : String
  low : Int
  high : Int
deriving DecidableEq, Repr

/-- Configuration for a single measurement run (`MeasurementConfig`). -/
structure MeasurementConfig where
  targetPath : String
  axes : List AxisId
  outputFormat : OutputFormat
  outputPath : Option String := none
  thresholds : List MetricThreshold := []
  noColor : Bool := false
  topN : Option Nat := none
deriving DecidableEq, Repr

/-- Records a failure for a single axis during orchestration, from
`src/orchestration/orchestrator.ts` (`AxisOrchestrationError`). -/
structure AxisOrchestrationError where
  axisId : AxisId
  adapterId : String
  error : AdapterError
deriving DecidableEq, Repr

/-- Error produced by the orchestrator when it cannot complete a run
(`OrchestrationError`). -/
structure OrchestrationError where
  message : String
  axisErrors : List AxisOrchestrationError
deriving DecidableEq, Repr

/-- Options for `measure` (`MeasureOptions`): an optional timestamp
generator overriding the wall clock. -/
structure MeasureOptions where
  timestampFn : Option (Unit → String) := none

/-- Determines the set of axes to measure (`resolveRequestedAxes`): the
config's axes when non-empty, otherwise all known axes (`[...AXES.keys()]`). -/
def resolveRequestedAxes (config : MeasurementConfig) : List AxisId :=
  if config.axes.length > 0 then config.axes
  else AXES.map Prod.fst

/-- The inner candidate loop of `resolveAdapters`: awaits each candidate's
availability check in list order and returns the first available adapter. -/
def firstAvailable : List ToolAdapter → Option ToolAdapter
  | [] => none
  | a :: rest =>
    match a.checkAvailability with
    | .available _ => some a
    | .unavailable _ => firstAvailable rest

/-- JavaScript `Map.set` on an association list: an existing key is updated
in place (insertion order kept), a new key is appended. -/
def mapSet (m : List (AxisId × ToolAdapter)) (k : AxisId) (v : ToolAdapter) :
    List (AxisId × ToolAdapter) :=
  match m with
  | [] => [(k, v)]
  | (k', v') :: rest => if k' = k then (k, v) :: rest else (k', v') :: mapSet rest k v

/-- The loop body of `resolveAdapters`: walks the requested axes, putting each
into the resolved map (first available adapter) or the unavailable list. -/
def resolveGo (registry : AdapterRegistry) :
    List AxisId → List (AxisId × ToolAdapter) → List AxisId →
    List (AxisId × ToolAdapter) × List AxisId
  | [], resolved, unavailable => (resolved, unavailable)
  | axisId :: rest, resolved, unavailable =>
    match firstAvailable (getAdaptersForAxis registry axisId) with
    | some adapter => resolveGo registry rest (mapSet resolved axisId adapter) unavailable
    | none => resolveGo registry rest resolved (unavailable ++ [axisId])

/-- For each requested axis, picks the first available adapter
(`resolveAdapters`): a map from axis to adapter, plus the axes that have no
available adapter. -/
def resolveAdapters (registry : AdapterRegistry) (axes : List AxisId) :
    List (AxisId × ToolAdapter) × List AxisId :=
  resolveGo registry axes [] []

/-- The partition loop of `measure`: pairs each resolved entry with its
measurement result, collecting successes and per-axis errors in order. -/
def partitionResults :
    List (AxisId × ToolAdapter) → List (Except AdapterError AxisMeasurement) →
    List AxisMeasurement × List AxisOrchestrationError
  | (axisId, adapter) :: es, r :: rs =>
    let rec' := partitionResults es rs
    match r with
    | .ok v => (v :: rec'.1, rec'.2)
    | .error e => (rec'.1, { axisId := axisId, adapterId := adapter.id, error := e } :: rec'.2)
  | _, _ => ([], [])

/-- Runs a full measurement pass (`measure` of
`src/orchestration/orchestrator.ts`).  `wallClock` stands for the default
timestamp source `() => new Date().toISOString()`. -/
def measure (config : MeasurementConfig) (registry : AdapterRegistry)
    (options : MeasureOptions) (wallClock : Unit → String) :
    Except OrchestrationError MeasurementReport :=
  let requestedAxes := resolveRequestedAxes config
  let rp := resolveAdapters registry requestedAxes
  let resolved := rp.1
  let unavailable := rp.2
  if resolved.length = 0 then
    Except.error
      { message :=
          if unavailable.length > 0 then
            "No available adapters for requested axes: "
              ++ String.intercalate ", " (unavailable.map axisIdString)
          else
            "No axes requested and no adapters registered",
        axisErrors := [] }
  else
    let entries := resolved
    let results := entries.map (fun e => e.2.measure config.targetPath e.1)
    let pr := partitionResults entries results
    let axisMeasurements := pr.1
    let axisErrors := pr.2
    if axisMeasurements.length = 0 ∧ axisErrors.length > 0 then
      Except.error
        { message := "All adapters failed during measurement",
          axisErrors := axisErrors }
    else
      let warnings :=
        unavailable.map (fun axisId =>
          ({ axisId := axisId,
             message := "No available adapter for axis \"" ++ axisIdString axisId ++ "\"" }
            : AxisWarning))
        ++ axisErrors.map (fun e =>
          ({ axisId := e.axisId,
             message := "Adapter \"" ++ e.adapterId ++ "\" failed: " ++ e.error.message }
            : AxisWarning))
      let timestamp :=
        match options.timestampFn with
        | some f => f ()
        | none => wallClock ()
      Except.ok
        { targetPath := config.targetPath,
          timestamp := timestamp,
          axes := axisMeasurements,
          warnings := warnings }

/-- The metric lookup of the `sortFiles` comparator:
`f.metrics.find((m) => m.descriptor.id === metricId)`. -/
def findMetric (metricId : String) (f : FileMeasurement) : Option MetricValue :=
  f.metrics.find? (fun m => m.descriptor.id == metricId)

/-- The comparator passed to `sort` by `sortFiles`: descending by the named
metric's value, files lacking the metric compare after files that have it. -/
def fileCompare (metricId : String) (a b : FileMeasurement) : Int :=
  match findMetric metricId a, findMetric metricId b with
  | none, none => 0
  | none, some _ => 1
  | some _, none => -1
  | some am, some bm => bm.value - am.value

/-- Inserts `a` into `l` before the first element `b` with `c a b ≤ 0`.
Folding the input right-to-left through this yields the stable sort by `c`. -/
def insertByCompare {α : Type} (c : α → α → Int) (a : α) : List α → List α
  | [] => [a]
  | b :: rest => if c a b ≤ 0 then a :: b :: rest else b :: insertByCompare c a rest

/-- The ECMAScript stable sort `[...l].sort(c)` for a consistent comparator
`c`: the unique permutation of `l` that is sorted by `c` and keeps the
original relative order of comparator-equal elements. -/
def stableSortByCompare {α : Type} (c : α → α → Int) : List α → List α
  | [] => []
  | a :: rest => insertByCompare c a (stableSortByCompare c rest)

/-- Returns a new report with each axis's files sorted descending by the
given metric (`sortFiles` of `src/orchestration/report-transforms.ts`). -/
def sortFiles (report : MeasurementReport) (metricId : String) : MeasurementReport :=
  { report with
    axes := report.axes.map (fun axis =>
      { axis with files := stableSortByCompare (fileCompare metricId) axis.files }) }

/-- Returns a new report with each axis's files truncated to at most `n`
entries, recording the pre-truncation count when truncation occurs
(`limitFiles` of `src/orchestration/report-transforms.ts`). -/
def limitFiles (report : MeasurementReport) (n : Nat) : MeasurementReport :=
  { report with
    axes := report.axes.map (fun axis =>
      if axis.files.length ≤ n then axis
      else
        { axis with
          files := axis.files.take n,
          fileTotalCount := some axis.files.length }) }

/-! Spec-side descriptions of the orchestrator's behaviour.  These are the
vocabulary the theorems below are stated in; the lemmas that follow prove
that the operational definitions above compute them. -/

/-- Whether an adapter reports itself available. -/
def isAvailable (a : ToolAdapter) : Bool :=
  match a.checkAvailability with
  | .available _ => true
  | .unavailable _ => false

/-- The adapter the orchestrator resolves for an axis: the first candidate,
in registration order, that reports available. -/
def availableAdapterFor (registry : AdapterRegistry) (ax : AxisId) : Option ToolAdapter :=
  firstAvailable (getAdaptersForAxis registry ax)

/-- The measurement an axis contributes to a successful report, if any: its
resolved adapter's measurement when that call succeeds. -/
def successfulMeasurement (registry : AdapterRegistry) (targetPath : String)
    (ax : AxisId) : Option AxisMeasurement :=
  match availableAdapterFor registry ax with
  | some adapter => (adapter.measure targetPath ax).toOption
  | none => none

/-- The per-axis error entry an axis contributes, if any: present exactly
when the axis resolved to an adapter whose measurement call failed. -/
def failureEntry (registry : AdapterRegistry) (targetPath : String)
    (ax : AxisId) : Option AxisOrchestrationError :=
  match availableAdapterFor registry ax with
  | some adapter =>
    match adapter.measure targetPath ax with
    | .error e => some { axisId := ax, adapterId := adapter.id, error := e }
    | .ok _ => none
  | none => none

/-- Removes duplicates from a list keeping the first occurrence of each
element (the key order of a JavaScript `Map` built by repeated `set`). -/
def dedupFirst {α : Type} [DecidableEq α] : List α → List α
  | [] => []
  | a :: rest => a :: (dedupFirst rest).filter (fun b => decide (b ≠ a))

/-- The resolved (axis, adapter) list `resolveAdapters` produces: the
requested axes, first occurrences only, each paired with its first available
adapter, axes without one dropped. -/
def specResolved (registry : AdapterRegistry) (axes : List AxisId) :
    List (AxisId × ToolAdapter) :=
  (dedupFirst axes).filterMap
    (fun ax => (availableAdapterFor registry ax).map (fun ad => (ax, ad)))

theorem mem_dedupFirst {α : Type} [DecidableEq α] {x : α} :
    ∀ {l : List α}, x ∈ dedupFirst l ↔ x ∈ l := by
  intro l
  induction l with
  | nil => simp [dedupFirst]
  | cons a rest ih =>
    simp only [dedupFirst, List.mem_cons, List.mem_filter, decide_eq_true_eq]
    constructor
    · rintro (rfl | ⟨hx, _⟩)
      · exact Or.inl rfl
      · exact Or.inr (ih.mp hx)
    · rintro (rfl | hx)
      · exact Or.inl rfl
      · by_cases hxa : x = a
        · exact Or.inl hxa
        · exact Or.inr ⟨ih.mpr hx, hxa⟩

theorem nodup_dedupFirst {α : Type} [DecidableEq α] :
    ∀ (l : List α), (dedupFirst l).Nodup := by
  intro l
  induction l with
  | nil => simp [dedupFirst]
  | cons a rest ih =>
    refine List.Nodup.cons ?_ (ih.filter _)
    intro hmem
    rcases List.mem_filter.mp hmem with ⟨_, hne⟩
    exact (decide_eq_true_eq.mp hne) rfl

theorem mapSet_eq_append {res : List (AxisId × ToolAdapter)} {k : AxisId}
    (v : ToolAdapter) (h : k ∉ res.map Prod.fst) :
    mapSet res k v = res ++ [(k, v)] := by
  induction res with
  | nil => rfl
  | cons p rest ih =>
    obtain ⟨k', v'⟩ := p
    simp only [List.map_cons, List.mem_cons] at h
    push_neg at h
    simp only [mapSet, if_neg (Ne.symm h.1), List.cons_append, List.cons.injEq, true_and]
    exact ih h.2

theorem mapSet_eq_self {res : List (AxisId × ToolAdapter)} {k : AxisId} {v : ToolAdapter}
    (h : ∀ p ∈ res, p.1 = k → p.2 = v) (hmem : k ∈ res.map Prod.fst) :
    mapSet res k v = res := by
  induction res with
  | nil => simp at hmem
  | cons p rest ih =>
    obtain ⟨k', v'⟩ := p
    by_cases hk : k' = k
    · have hv : v' = v := h (k', v') (List.mem_cons_self _ _) hk
      simp [mapSet, hk, hv]
    · simp only [List.map_cons, List.mem_cons] at hmem
      rcases hmem with h1 | h2
      · exact absurd h1.symm hk
      · simp only [mapSet, if_neg hk, List.cons.injEq, true_and]
        exact ih (fun p hp => h p (List.mem_cons_of_mem _ hp)) h2

theorem filterMap_filter_congr {α β : Type} {p q : α → Bool} {f : α → Option β} :
    ∀ l : List α, (∀ x ∈ l, p x = q x ∨ f x = none) →
      (l.filter p).filterMap f = (l.filter q).filterMap f := by
  intro l
  induction l with
  | nil => intro _; rfl
  | cons x xs ih =>
    intro h
    have hx := h x (List.mem_cons_self _ _)
    have hxs := ih (fun y hy => h y (List.mem_cons_of_mem _ hy))
    rcases hx with hpq | hfn
    · cases hp : p x
      · rw [List.filter_cons_of_neg (by simp [hp]),
            List.filter_cons_of_neg (by simp [hpq ▸ hp]), hxs]
      · rw [List.filter_cons_of_pos (by simp [hp]),
            List.filter_cons_of_pos (by simp [hpq ▸ hp])]
        simp only [List.filterMap_cons, hxs]
    · cases hp : p x <;> cases hq : q x <;>
        simp [List.filter_cons, hp, hq, List.filterMap_cons, hfn, hxs]

theorem resolveGo_snd (registry : AdapterRegistry) :
    ∀ (axes : List AxisId) (res : List (AxisId × ToolAdapter)) (unav : List AxisId),
      (resolveGo registry axes res unav).2 =
        unav ++ axes.filter (fun ax => (availableAdapterFor registry ax).isNone) := by
  intro axes
  induction axes with
  | nil => intro res unav; simp [resolveGo]
  | cons ax rest ih =>
    intro res unav
    cases h : availableAdapterFor registry ax with
    | some adapter =>
      rw [show resolveGo registry (ax :: rest) res unav
            = resolveGo registry rest (mapSet res ax adapter) unav by
          simp only [resolveGo]
          rw [show firstAvailable (getAdaptersForAxis registry ax)
                = availableAdapterFor registry ax from rfl, h]]
      rw [ih, List.filter_cons_of_neg (by simp [h])]
    | none =>
      rw [show resolveGo registry (ax :: rest) res unav
            = resolveGo registry rest res (unav ++ [ax]) by
          simp only [resolveGo]
          rw [show firstAvailable (getAdaptersForAxis registry ax)
                = availableAdapterFor registry ax from rfl, h]]
      rw [ih, List.filter_cons_of_pos (by simp [h]), List.append_assoc]
      rfl

theorem resolveGo_fst (registry : AdapterRegistry) :
    ∀ (axes : List AxisId) (res : List (AxisId × ToolAdapter)) (unav : List AxisId),
      (∀ p ∈ res, availableAdapterFor registry p.1 = some p.2) →
      (resolveGo registry axes res unav).1 =
        res ++ ((dedupFirst axes).filter (fun ax => decide (ax ∉ res.map Prod.fst))).filterMap
          (fun ax => (availableAdapterFor registry ax).map (fun ad => (ax, ad))) := by
  intro axes
  induction axes with
  | nil => intro res unav _; simp [resolveGo, dedupFirst]
  | cons ax rest ih =>
    intro res unav hcoh
    cases h : availableAdapterFor registry ax with
    | some adapter =>
      rw [show resolveGo registry (ax :: rest) res unav
            = resolveGo registry rest (mapSet res ax adapter) unav by
          simp only [resolveGo]
          rw [show firstAvailable (getAdaptersForAxis registry ax)
                = availableAdapterFor registry ax from rfl, h]]
      by_cases hmem : ax ∈ res.map Prod.fst
      · have hset : mapSet res ax adapter = res := by
          refine mapSet_eq_self ?_ hmem
          intro p hp hpk
          have := hcoh p hp
          rw [hpk, h] at this
          exact (Option.some.injEq _ _ ▸ this).symm
        rw [hset, ih res unav hcoh]
        congr 1
        simp only [dedupFirst]
        rw [List.filter_cons_of_neg (by simp [hmem]), List.filter_filter]
        refine congrArg (List.filterMap _) (List.filter_congr ?_)
        intro x _
        by_cases hxa : x = ax
        · subst hxa; simp [hmem]
        · simp [hxa]
      · have hset : mapSet res ax adapter = res ++ [(ax, adapter)] :=
          mapSet_eq_append adapter hmem
        have hcoh' : ∀ p ∈ res ++ [(ax, adapter)],
            availableAdapterFor registry p.1 = some p.2 := by
          intro p hp
          rcases List.mem_append.mp hp with hp | hp
          · exact hcoh p hp
          · simp only [List.mem_singleton] at hp
            subst hp; exact h
        rw [hset, ih _ unav hcoh']
        simp only [dedupFirst]
        rw [List.filter_cons_of_pos (by simp [hmem]), List.filterMap_cons]
        simp only [h, Option.map_some]
        rw [List.append_assoc]
        simp only [List.singleton_append]
        congr 2
        rw [List.filter_filter]
        refine congrArg (List.filterMap _) (List.filter_congr ?_)
        intro x _
        by_cases hxa : x = ax
        · subst hxa; simp
        · simp [hxa, hxa ∘ Eq.symm]
    | none =>
      rw [show resolveGo registry (ax :: rest) res unav
            = resolveGo registry rest res (unav ++ [ax]) by
          simp only [resolveGo]
          rw [show firstAvailable (getAdaptersForAxis registry ax)
                = availableAdapterFor registry ax from rfl, h]]
      have hmem : ax ∉ res.map Prod.fst := by
        intro hmem
        rcases List.mem_map.mp hmem with ⟨p, hp, hpk⟩
        have := hcoh p hp
        rw [hpk, h] at this
        exact Option.noConfusion this
      rw [ih res _ hcoh]
      congr 1
      simp only [dedupFirst]
      rw [List.filter_cons_of_pos (by simp [hmem]), List.filterMap_cons]
      simp only [h, Option.map_none]
      rw [List.filter_filter]
      refine filterMap_filter_congr _ ?_
      intro x _
      by_cases hxa : x = ax
      · subst hxa; simp [h]
      · left; simp [hxa]

/-- The resolved map of `resolveAdapters`, characterised: first occurrences
of the requested axes, each paired with its first available adapter. -/
theorem resolveAdapters_fst (registry : AdapterRegistry) (axes : List AxisId) :
    (resolveAdapters registry axes).1 = specResolved registry axes := by
  rw [resolveAdapters, resolveGo_fst registry axes [] [] (by intro p hp; simp at hp)]
  simp only [List.nil_append, specResolved]
  congr 1
  refine (List.filter_eq_self.mpr ?_)
  intro x _
  simp

/-- The unavailable list of `resolveAdapters`, characterised: the requested
axes (all occurrences, in request order) with no available adapter. -/
theorem resolveAdapters_snd (registry : AdapterRegistry) (axes : List AxisId) :
    (resolveAdapters registry axes).2 =
      axes.filter (fun ax => (availableAdapterFor registry ax).isNone) := by
  rw [resolveAdapters, resolveGo_snd]
  simp

theorem partitionResults_map (tp : String) :
    ∀ entries : List (AxisId × ToolAdapter),
      partitionResults entries (entries.map (fun e => e.2.measure tp e.1)) =
        (entries.filterMap (fun e => (e.2.measure tp e.1).toOption),
         entries.filterMap (fun e =>
           match e.2.measure tp e.1 with
           | .error er => some { axisId := e.1, adapterId := e.2.id, error := er }
           | .ok _ => none)) := by
  intro entries
  induction entries with
  | nil => rfl
  | cons e es ih =>
    obtain ⟨ax, ad⟩ := e
    cases h : ad.measure tp ax with
    | ok v =>
      simp only [List.map_cons, partitionResults, ih, List.filterMap_cons, h,
        Except.toOption]
    | error er =>
      simp only [List.map_cons, partitionResults, ih, List.filterMap_cons, h,
        Except.toOption]

theorem partition_length (tp : String) :
    ∀ entries : List (AxisId × ToolAdapter),
      (entries.filterMap (fun e => (e.2.measure tp e.1).toOption)).length +
        (entries.filterMap (fun e =>
           match e.2.measure tp e.1 with
           | .error er =>
             some ({ axisId := e.1, adapterId := e.2.id, error := er } : AxisOrchestrationError)
           | .ok _ => none)).length = entries.length := by
  intro entries
  induction entries with
  | nil => rfl
  | cons e es ih =>
    obtain ⟨ax, ad⟩ := e
    cases h : ad.measure tp ax with
    | ok v =>
      simp only [List.filterMap_cons, h, Except.toOption, List.length_cons] at ih ⊢
      omega
    | error er =>
      simp only [List.filterMap_cons, h, Except.toOption, List.length_cons] at ih ⊢
      omega

theorem specResolved_ok_bridge (registry : AdapterRegistry) (tp : String)
    (axes : List AxisId) :
    (specResolved registry axes).filterMap (fun e => (e.2.measure tp e.1).toOption) =
      (dedupFirst axes).filterMap (successfulMeasurement registry tp) := by
  unfold specResolved
  rw [List.filterMap_filterMap]
  refine List.filterMap_congr ?_
  intro ax _
  cases h : availableAdapterFor registry ax <;>
    simp [successfulMeasurement, h]

theorem specResolved_err_bridge (registry : AdapterRegistry) (tp : String)
    (axes : List AxisId) :
    (specResolved registry axes).filterMap (fun e =>
        match e.2.measure tp e.1 with
        | .error er => some { axisId := e.1, adapterId := e.2.id, error := er }
        | .ok _ => none) =
      (dedupFirst axes).filterMap (failureEntry registry tp) := by
  unfold specResolved
  rw [List.filterMap_filterMap]
  refine List.filterMap_congr ?_
  intro ax _
  cases h : availableAdapterFor registry ax with
  | none => simp [failureEntry, h]
  | some ad =>
    cases hm : ad.measure tp ax <;> simp [failureEntry, h, hm]

theorem resolveRequestedAxes_ne_nil (config : MeasurementConfig) :
    resolveRequestedAxes config ≠ [] := by
  unfold resolveRequestedAxes
  split
  · intro h
    simp_all
  · simp [AXES]

/-- Behaviour of `measure` when no requested axis has an available adapter:
the early-out error naming every requested axis, with an empty error list. -/
theorem measure_eq_error_empty (config : MeasurementConfig) (registry : AdapterRegistry)
    (options : MeasureOptions) (wallClock : Unit → String)
    (hall : ∀ ax ∈ resolveRequestedAxes config, availableAdapterFor registry ax = none) :
    measure config registry options wallClock =
      Except.error
        { message := "No available adapters for requested axes: "
            ++ String.intercalate ", " ((resolveRequestedAxes config).map axisIdString),
          axisErrors := [] } := by
  have hreq := resolveRequestedAxes_ne_nil config
  have hspec : specResolved registry (resolveRequestedAxes config) = [] := by
    unfold specResolved
    rw [List.filterMap_eq_nil_iff]
    intro ax hax
    rw [hall ax (mem_dedupFirst.mp hax)]
    rfl
  have hunav : (resolveAdapters registry (resolveRequestedAxes config)).2
      = resolveRequestedAxes config := by
    rw [resolveAdapters_snd]
    refine List.filter_eq_self.mpr ?_
    intro ax hax
    rw [hall ax hax]
    rfl
  simp only [measure, resolveAdapters_fst, resolveAdapters_snd]
  rw [resolveAdapters_snd] at hunav
  rw [hunav, hspec, if_pos (List.length_pos.mpr hreq)]
  simp

/-- Behaviour of `measure` when at least one axis resolves but every resolved
adapter's measurement fails: the fixed sentinel error carrying one entry per
failed axis. -/
theorem measure_eq_error_allfail (config : MeasurementConfig) (registry : AdapterRegistry)
    (options : MeasureOptions) (wallClock : Unit → String)
    (hne : ∃ ax ∈ resolveRequestedAxes config, availableAdapterFor registry ax ≠ none)
    (hA : (dedupFirst (resolveRequestedAxes config)).filterMap
        (successfulMeasurement registry config.targetPath) = []) :
    measure config registry options wallClock =
      Except.error
        { message := "All adapters failed during measurement",
          axisErrors := (dedupFirst (resolveRequestedAxes config)).filterMap
            (failureEntry registry config.targetPath) } := by
  obtain ⟨ax, hax, havail⟩ := hne
  obtain ⟨ad, had⟩ := Option.ne_none_iff_exists'.mp havail
  have hmem : (ax, ad) ∈ specResolved registry (resolveRequestedAxes config) := by
    unfold specResolved
    refine List.mem_filterMap.mpr ⟨ax, mem_dedupFirst.mpr hax, ?_⟩
    rw [had]
    rfl
  have hspec := List.ne_nil_of_mem hmem
  have hlen := partition_length config.targetPath
    (specResolved registry (resolveRequestedAxes config))
  rw [specResolved_ok_bridge, hA] at hlen
  simp only [List.length_nil, Nat.zero_add] at hlen
  have herr : 0 < ((specResolved registry (resolveRequestedAxes config)).filterMap
      (fun e =>
        match e.2.measure config.targetPath e.1 with
        | .error er =>
          some ({ axisId := e.1, adapterId := e.2.id, error := er } : AxisOrchestrationError)
        | .ok _ => none)).length := by
    rw [hlen]
    exact List.length_pos.mpr hspec
  simp only [measure, resolveAdapters_fst, resolveAdapters_snd, partitionResults_map]
  rw [if_neg (by simp [List.length_eq_zero, hspec]),
    if_pos ⟨by rw [specResolved_ok_bridge, hA]; rfl, herr⟩,
    specResolved_err_bridge]

/-- Behaviour of `measure` when at least one axis resolves to an adapter
whose measurement succeeds: a successful report listing the successful
measurements in request order, with one warning per unavailable axis
followed by one warning per failed adapter. -/
theorem measure_eq_ok (config : MeasurementConfig) (registry : AdapterRegistry)
    (options : MeasureOptions) (wallClock : Unit → String)
    (hA : (dedupFirst (resolveRequestedAxes config)).filterMap
        (successfulMeasurement registry config.targetPath) ≠ []) :
    measure config registry options wallClock =
      Except.ok
        { targetPath := config.targetPath,
          timestamp :=
            match options.timestampFn with
            | some f => f ()
            | none => wallClock (),
          axes := (dedupFirst (resolveRequestedAxes config)).filterMap
            (successfulMeasurement registry config.targetPath),
          warnings :=
            ((resolveRequestedAxes config).filter
                (fun ax => (availableAdapterFor registry ax).isNone)).map
              (fun axisId =>
                { axisId := axisId,
                  message := "No available adapter for axis \""
                    ++ axisIdString axisId ++ "\"" })
            ++ ((dedupFirst (resolveRequestedAxes config)).filterMap
                (failureEntry registry config.targetPath)).map
              (fun e =>
                { axisId := e.axisId,
                  message := "Adapter \"" ++ e.adapterId ++ "\" failed: "
                    ++ e.error.message }) } := by
  have hspec : specResolved registry (resolveRequestedAxes config) ≠ [] := by
    intro h
    apply hA
    rw [← specResolved_ok_bridge, h]
    rfl
  simp only [measure, resolveAdapters_fst, resolveAdapters_snd, partitionResults_map,
    specResolved_ok_bridge, specResolved_err_bridge]
  rw [if_neg (by simp [List.length_eq_zero, hspec]),
    if_neg (by rintro ⟨h0, _⟩; exact hA (List.length_eq_zero.mp h0))]

/-- Inversion for successful runs: any report `measure` returns is exactly
the report described by `measure_eq_ok`. -/
theorem measure_ok_inv (config : MeasurementConfig) (registry : AdapterRegistry)
    (options : MeasureOptions) (wallClock : Unit → String) (rep : MeasurementReport)
    (h : measure config registry options wallClock = Except.ok rep) :
    (dedupFirst (resolveRequestedAxes config)).filterMap
        (successfulMeasurement registry config.targetPath) ≠ [] ∧
    rep =
      { targetPath := config.targetPath,
        timestamp :=
          match options.timestampFn with
          | some f => f ()
          | none => wallClock (),
        axes := (dedupFirst (resolveRequestedAxes config)).filterMap
          (successfulMeasurement registry config.targetPath),
        warnings :=
          ((resolveRequestedAxes config).filter
              (fun ax => (availableAdapterFor registry ax).isNone)).map
            (fun axisId =>
              { axisId := axisId,
                message := "No available adapter for axis \""
                  ++ axisIdString axisId ++ "\"" })
          ++ ((dedupFirst (resolveRequestedAxes config)).filterMap
              (failureEntry registry config.targetPath)).map
            (fun e =>
              { axisId := e.axisId,
                message := "Adapter \"" ++ e.adapterId ++ "\" failed: "
                  ++ e.error.message }) } := by
  by_cases hA : (dedupFirst (resolveRequestedAxes config)).filterMap
      (successfulMeasurement registry config.targetPath) = []
  · exfalso
    by_cases hall : ∀ ax ∈ resolveRequestedAxes config,
        availableAdapterFor registry ax = none
    · rw [measure_eq_error_empty config registry options wallClock hall] at h
      exact Except.noConfusion h
    · push_neg at hall
      rw [measure_eq_error_allfail config registry options wallClock hall hA] at h
      exact Except.noConfusion h
  · rw [measure_eq_ok config registry options wallClock hA] at h
    exact ⟨hA, (Except.ok.injEq _ _ ▸ h).symm⟩

theorem firstAvailable_eq_find? :
    ∀ l : List ToolAdapter, firstAvailable l = l.find? isAvailable := by
  intro l
  induction l with
  | nil => rfl
  | cons a rest ih =>
    cases h : a.checkAvailability with
    | available v =>
      rw [show firstAvailable (a :: rest) = some a by simp only [firstAvailable, h]]
      rw [List.find?_cons_of_pos _ (by simp [isAvailable, h])]
    | unavailable r =>
      rw [show firstAvailable (a :: rest) = firstAvailable rest by
        simp only [firstAvailable, h]]
      rw [List.find?_cons_of_neg _ (by simp [isAvailable, h]), ih]

theorem firstAvailable_eq_none_iff (l : List ToolAdapter) :
    firstAvailable l = none ↔ ∀ a ∈ l, isAvailable a = false := by
  rw [firstAvailable_eq_find?, List.find?_eq_none]
  constructor
  · intro h a ha
    exact Bool.eq_false_iff.mpr (h a ha)
  · intro h a ha
    simp [h a ha]

theorem firstAvailable_mem {l : List ToolAdapter} {a : ToolAdapter}
    (h : firstAvailable l = some a) : a ∈ l := by
  rw [firstAvailable_eq_find?] at h
  exact List.mem_of_find?_eq_some h

theorem availableAdapterFor_mem {registry : AdapterRegistry} {ax : AxisId}
    {ad : ToolAdapter} (h : availableAdapterFor registry ax = some ad) :
    ad ∈ registry.adapters :=
  List.mem_of_mem_filter (firstAvailable_mem h)

/-- The selection rule of the resolution step: per axis, the chosen adapter
is the first adapter, in registration order, that supports the axis and
reports available. -/
theorem availableAdapterFor_eq_find? (registry : AdapterRegistry) (ax : AxisId) :
    availableAdapterFor registry ax =
      registry.adapters.find? (fun a => decide (ax ∈ a.supportedAxes) && isAvailable a) := by
  rw [availableAdapterFor, firstAvailable_eq_find?, getAdaptersForAxis, List.find?_filter]
  refine congrFun (congrArg List.find? (funext fun a => ?_)) registry.adapters
  by_cases hmem : ax ∈ a.supportedAxes <;> cases hav : isAvailable a <;>
    simp [hmem, hav]

/-- When at least one requested axis resolves to an adapter and no axis
produces a successful measurement, at least one failure entry exists. -/
theorem failureEntries_ne_nil (config : MeasurementConfig) (registry : AdapterRegistry)
    (hne : ∃ ax ∈ resolveRequestedAxes config, availableAdapterFor registry ax ≠ none)
    (hA : (dedupFirst (resolveRequestedAxes config)).filterMap
        (successfulMeasurement registry config.targetPath) = []) :
    (dedupFirst (resolveRequestedAxes config)).filterMap
      (failureEntry registry config.targetPath) ≠ [] := by
  obtain ⟨ax, hax, havail⟩ := hne
  obtain ⟨ad, had⟩ := Option.ne_none_iff_exists'.mp havail
  have haxd : ax ∈ dedupFirst (resolveRequestedAxes config) := mem_dedupFirst.mpr hax
  have hnosucc : successfulMeasurement registry config.targetPath ax = none := by
    rw [List.filterMap_eq_nil_iff] at hA
    exact hA ax haxd
  cases hm : ad.measure config.targetPath ax with
  | ok v =>
    exfalso
    simp [successfulMeasurement, had, hm, Except.toOption] at hnosucc
  | error e =>
    have : failureEntry registry config.targetPath ax
        = some { axisId := ax, adapterId := ad.id, error := e } := by
      simp only [failureEntry, had, hm]
    exact List.ne_nil_of_mem (List.mem_filterMap.mpr ⟨ax, haxd, this⟩)

/-- The early-out message naming unavailable axes is never the message of
the would-be no-adapters branch (the two literals differ). -/
theorem unavailable_message_ne (s : String) :
    "No available adapters for requested axes: " ++ s
      ≠ "No axes requested and no adapters registered" := by
  intro h
  have hd := congrArg String.data h
  rw [String.data_append] at hd
  have h6 := congrArg (fun l => l.take 6) hd
  simp only at h6
  rw [List.take_append_of_le_length (by decide)] at h6
  revert h6
  decide

theorem filterMap_map_sublist {α β : Type} (f : α → Option β) (g : β → α) :
    ∀ l : List α, (∀ x ∈ l, ∀ y, f x = some y → g y = x) →
      ((l.filterMap f).map g).Sublist l := by
  intro l
  induction l with
  | nil => intro _; simp
  | cons x xs ih =>
    intro h
    have hxs := ih fun z hz => h z (List.mem_cons_of_mem _ hz)
    cases hf : f x with
    | none =>
      rw [List.filterMap_cons_none hf]
      exact hxs.cons x
    | some y =>
      rw [List.filterMap_cons_some hf, List.map_cons,
        h x (List.mem_cons_self _ _) y hf]
      exact hxs.cons₂ x

/-! Concrete fixtures used by the witnesses and counterexamples below. -/

/-- The code-lines metric descriptor the transform tests use. -/
def codeLinesDescriptor : MetricDescriptor :=
  { id := "code-lines", name := "Code Lines", unit := "lines",
    min := 0, max := none, interpretationText := "Lines of code in the file" }

/-- A fixed measurement for the size axis, as a stub adapter would return. -/
def sizeMeasurement : AxisMeasurement :=
  { axisId := .size,
    summary := [{ descriptor := codeLinesDescriptor, value := 120 }],
    files := [] }

/-- A stub adapter that is available and measures the size axis. -/
def sizeAdapter : ToolAdapter :=
  { id := "scc", toolName := "scc", supportedAxes := [.size],
    checkAvailability := .available "3.3.0",
    measure := fun _ _ => Except.ok sizeMeasurement }

/-- A stub adapter for the size axis that reports itself unavailable. -/
def offlineAdapter : ToolAdapter :=
  { id := "offline-tool", toolName := "Offline Tool", supportedAxes := [.size],
    checkAvailability := .unavailable "not installed",
    measure := fun _ _ =>
      Except.error { adapterId := "offline-tool", message := "never invoked" } }

/-- A stub adapter that is available but whose measurement call fails. -/
def failingAdapter : ToolAdapter :=
  { id := "broken-tool", toolName := "Broken Tool", supportedAxes := [.size],
    checkAvailability := .available "1.0.0",
    measure := fun _ _ =>
      Except.error { adapterId := "broken-tool", message := "exit status 2" } }

/-- A configuration requesting the size axis once. -/
def demoConfig : MeasurementConfig :=
  { targetPath := "/project", axes := [.size], outputFormat := .json }

/-- A configuration whose requested axis list contains a duplicate. -/
def dupConfig : MeasurementConfig :=
  { targetPath := "/project", axes := [.size, .size], outputFormat := .json }

/-- Options with a fixed timestamp generator, as the tests use. -/
def demoOptions : MeasureOptions :=
  { timestampFn := some (fun _ => "2025-01-01T00:00:00.000Z") }

/-- A fixed wall clock standing in for `() => new Date().toISOString()`. -/
def demoClock : Unit → String := fun _ => "2025-01-01T00:00:00.000Z"

/-- A stub adapter for the size axis that tags each measurement with the
axis it was asked for. -/
def echoAdapter : ToolAdapter :=
  { id := "echo-size", toolName := "Echo Size", supportedAxes := [.size],
    checkAvailability := .available "1.0.0",
    measure := fun _ ax => Except.ok { axisId := ax, summary := [], files := [] } }

/-- A stub adapter for the complexity axis tagging measurements likewise. -/
def echoComplexityAdapter : ToolAdapter :=
  { id := "echo-complexity", toolName := "Echo Complexity",
    supportedAxes := [.complexity],
    checkAvailability := .available "1.0.0",
    measure := fun _ ax => Except.ok { axisId := ax, summary := [], files := [] } }

/-- A stub duplication adapter that is available but fails to measure. -/
def dupFailAdapter : ToolAdapter :=
  { id := "dup-tool", toolName := "Dup Tool", supportedAxes := [.duplication],
    checkAvailability := .available "2.0.0",
    measure := fun _ _ =>
      Except.error { adapterId := "dup-tool", message := "parse failure" } }

/-- A configuration requesting three axes with mixed outcomes. -/
def multiConfig : MeasurementConfig :=
  { targetPath := "/project", axes := [.complexity, .size, .duplication],
    outputFormat := .json }

/-- The registry for the mixed-outcome scenario: one succeeding adapter, one
unavailable adapter, one failing adapter. -/
def multiRegistry : AdapterRegistry :=
  { adapters := [echoComplexityAdapter, offlineAdapter, dupFailAdapter] }

/-- The report the mixed-outcome scenario produces. -/
def multiReport : MeasurementReport :=
  { targetPath := "/project", timestamp := "2025-01-01T00:00:00.000Z",
    axes := [{ axisId := .complexity, summary := [], files := [] }],
    warnings :=
      [⟨.size, "No available adapter for axis \"size\""⟩,
       ⟨.duplication, "Adapter \"dup-tool\" failed: parse failure"⟩] }

/-- The report the duplicate-request scenario with the echo adapter produces. -/
def dupEchoReport : MeasurementReport :=
  { targetPath := "/project", timestamp := "2025-01-01T00:00:00.000Z",
    axes := [{ axisId := .size, summary := [], files := [] }],
    warnings := [] }

theorem measure_multi_eval : measure multiConfig multiRegistry demoOptions demoClock
    = Except.ok multiReport := by rfl

theorem measure_dup_echo_eval :
    measure dupConfig { adapters := [echoAdapter] } demoOptions demoClock
      = Except.ok dupEchoReport := by rfl

theorem measure_dup_size_eval :
    measure dupConfig { adapters := [sizeAdapter] } demoOptions demoClock =
      Except.ok
        { targetPath := "/project", timestamp := "2025-01-01T00:00:00.000Z",
          axes := [sizeMeasurement], warnings := [] } := by rfl

theorem measure_fallback_eval :
    measure demoConfig { adapters := [offlineAdapter, sizeAdapter] } demoOptions demoClock =
      Except.ok
        { targetPath := "/project", timestamp := "2025-01-01T00:00:00.000Z",
          axes := [sizeMeasurement], warnings := [] } := by rfl

theorem measure_unavailable_eval :
    measure demoConfig { adapters := [offlineAdapter] } demoOptions demoClock =
      Except.error
        { message := "No available adapters for requested axes: size",
          axisErrors := [] } := by rfl

theorem measure_allfailed_eval :
    measure demoConfig { adapters := [failingAdapter] } demoOptions demoClock =
      Except.error
        { message := "All adapters failed during measurement",
          axisErrors :=
            [⟨.size, "broken-tool", ⟨"broken-tool", "exit status 2"⟩⟩] } := by
  rfl

/-- Under the tagging assumption (each adapter returns a measurement tagged
with the axis it was asked for), a successful measurement for an axis
carries that axis's id. -/
theorem successfulMeasurement_tagged (config : MeasurementConfig)
    (registry : AdapterRegistry)
    (htag : ∀ ad ∈ registry.adapters, ∀ ax ∈ resolveRequestedAxes config,
      ∀ m, ad.measure config.targetPath ax = Except.ok m → m.axisId = ax)
    {b : AxisId} (hb : b ∈ resolveRequestedAxes config) {m : AxisMeasurement}
    (hsm : successfulMeasurement registry config.targetPath b = some m) :
    m.axisId = b := by
  cases had : availableAdapterFor registry b with
  | none => simp [successfulMeasurement, had] at hsm
  | some ad =>
    simp only [successfulMeasurement, had] at hsm
    cases hmm : ad.measure config.targetPath b with
    | ok v =>
      rw [hmm] at hsm
      have hv : v = m := by simpa [Except.toOption] using hsm
      subst hv
      exact htag ad (availableAdapterFor_mem had) b hb v hmm
    | error er =>
      rw [hmm] at hsm
      simp [Except.toOption] at hsm

/-- Stated from the claim's words for C1, to compare against the code: the
requested axis sequence (with its duplicates) filtered to the axes that
resolved and measured successfully, each mapped to its measurement. -/
def claimedAxesPerRequestOccurrence (config : MeasurementConfig)
    (registry : AdapterRegistry) : List AxisMeasurement :=
  (resolveRequestedAxes config).filterMap
    (successfulMeasurement registry config.targetPath)

/-- C1 (counterexample): with a duplicated requested axis, the report's axes
list is not the requested sequence filtered to successful axes — the report
lists the axis once while the claimed list contains it twice. -/
theorem c1_duplicate_request_counterexample :
    measure dupConfig { adapters := [echoAdapter] } demoOptions demoClock
        = Except.ok dupEchoReport ∧
      dupEchoReport.axes
        ≠ claimedAxesPerRequestOccurrence dupConfig { adapters := [echoAdapter] } :=
  ⟨rfl, by decide⟩

/-- C1 (amended): whenever some requested axis resolves to an available
adapter whose measurement succeeds, and adapters tag measurements with the
asked axis, `measure` succeeds and the report's axes list is exactly the
requested sequence with duplicates removed (first occurrences kept, the
canonical full sequence when the request is empty), filtered to the axes
that resolved and measured successfully, in that order; hence every
reported axis id is a member of the requested set. -/
theorem c1_report_axes_follow_request (config : MeasurementConfig)
    (registry : AdapterRegistry) (options : MeasureOptions) (wallClock : Unit → String)
    (htag : ∀ ad ∈ registry.adapters, ∀ ax ∈ resolveRequestedAxes config,
      ∀ m, ad.measure config.targetPath ax = Except.ok m → m.axisId = ax)
    (hsucc : ∃ ax ∈ resolveRequestedAxes config,
      successfulMeasurement registry config.targetPath ax ≠ none) :
    ∃ rep, measure config registry options wallClock = Except.ok rep ∧
      rep.axes = (dedupFirst (resolveRequestedAxes config)).filterMap
        (successfulMeasurement registry config.targetPath) ∧
      ∀ m ∈ rep.axes, m.axisId ∈ resolveRequestedAxes config := by
  obtain ⟨ax, hax, hs⟩ := hsucc
  obtain ⟨m0, hm0⟩ := Option.ne_none_iff_exists'.mp hs
  have hA : (dedupFirst (resolveRequestedAxes config)).filterMap
      (successfulMeasurement registry config.targetPath) ≠ [] :=
    List.ne_nil_of_mem (List.mem_filterMap.mpr ⟨ax, mem_dedupFirst.mpr hax, hm0⟩)
  refine ⟨_, measure_eq_ok config registry options wallClock hA, rfl, ?_⟩
  intro m hm
  obtain ⟨b, hb, hsm⟩ := List.mem_filterMap.mp hm
  have hbreq := mem_dedupFirst.mp hb
  rw [successfulMeasurement_tagged config registry htag hbreq hsm]
  exact hbreq

/-- C1 (witness): with the echo size adapter and the single-axis config, the
amended statement holds at a concrete input. -/
theorem c1_witness :
    ∃ rep, measure demoConfig { adapters := [echoAdapter] } demoOptions demoClock
        = Except.ok rep ∧
      rep.axes = (dedupFirst (resolveRequestedAxes demoConfig)).filterMap
        (successfulMeasurement { adapters := [echoAdapter] } demoConfig.targetPath) ∧
      ∀ m ∈ rep.axes, m.axisId ∈ resolveRequestedAxes demoConfig :=
  c1_report_axes_follow_request demoConfig { adapters := [echoAdapter] }
    demoOptions demoClock
    (by
      intro ad had ax hax m h
      have hade : ad = echoAdapter := by simpa using had
      subst hade
      have : Except.ok ({ axisId := ax, summary := [], files := [] } : AxisMeasurement)
          = Except.ok m := h
      cases this
      rfl)
    ⟨.size, by decide, by decide⟩

/-- C2: when no requested axis has any available adapter (every candidate
reports unavailable, or there are no candidates), `measure` returns an
orchestration error whose message names every unavailable axis and whose
per-axis error list is empty. -/
theorem c2_all_unavailable_error (config : MeasurementConfig)
    (registry : AdapterRegistry) (options : MeasureOptions) (wallClock : Unit → String)
    (hall : ∀ ax ∈ resolveRequestedAxes config,
      ∀ a ∈ getAdaptersForAxis registry ax, isAvailable a = false) :
    measure config registry options wallClock =
      Except.error
        { message := "No available adapters for requested axes: "
            ++ String.intercalate ", " ((resolveRequestedAxes config).map axisIdString),
          axisErrors := [] } :=
  measure_eq_error_empty config registry options wallClock
    (fun ax hax => (firstAvailable_eq_none_iff _).mpr (hall ax hax))

/-- C2 (witness): a registry holding only the unavailable size adapter. -/
theorem c2_witness :
    measure demoConfig { adapters := [offlineAdapter] } demoOptions demoClock =
      Except.error
        { message := "No available adapters for requested axes: "
            ++ String.intercalate ", "
              ((resolveRequestedAxes demoConfig).map axisIdString),
          axisErrors := [] } :=
  c2_all_unavailable_error demoConfig { adapters := [offlineAdapter] }
    demoOptions demoClock
    (by
      intro ax hax a ha
      have hax' : ax = .size := by
        rw [show resolveRequestedAxes demoConfig = [.size] from rfl] at hax
        simpa using hax
      subst hax'
      have ha' : a = offlineAdapter := by
        rw [show getAdaptersForAxis { adapters := [offlineAdapter] } .size
          = [offlineAdapter] from rfl] at ha
        simpa using ha
      subst ha'
      rfl)

/-- C3: when at least one axis resolves to an available adapter and every
resolved adapter's measurement call fails, `measure` returns the fixed
sentinel error with exactly one entry per failed axis, each carrying the
axis id, the resolved adapter's id and the underlying adapter error. -/
theorem c3_all_adapters_failed_error (config : MeasurementConfig)
    (registry : AdapterRegistry) (options : MeasureOptions) (wallClock : Unit → String)
    (hres : ∃ ax ∈ resolveRequestedAxes config, availableAdapterFor registry ax ≠ none)
    (hfail : ∀ ax ∈ resolveRequestedAxes config, ∀ ad,
      availableAdapterFor registry ax = some ad →
      ∃ e, ad.measure config.targetPath ax = Except.error e) :
    measure config registry options wallClock =
      Except.error
        { message := "All adapters failed during measurement",
          axisErrors := (dedupFirst (resolveRequestedAxes config)).filterMap
            (failureEntry registry config.targetPath) } ∧
    (dedupFirst (resolveRequestedAxes config)).filterMap
        (failureEntry registry config.targetPath) ≠ [] ∧
    ∀ err ∈ (dedupFirst (resolveRequestedAxes config)).filterMap
        (failureEntry registry config.targetPath),
      ∃ ad, availableAdapterFor registry err.axisId = some ad ∧
        ad.id = err.adapterId ∧
        ad.measure config.targetPath err.axisId = Except.error err.error := by
  have hA : (dedupFirst (resolveRequestedAxes config)).filterMap
      (successfulMeasurement registry config.targetPath) = [] := by
    rw [List.filterMap_eq_nil_iff]
    intro ax hax
    cases had : availableAdapterFor registry ax with
    | none => simp [successfulMeasurement, had]
    | some ad =>
      obtain ⟨e, he⟩ := hfail ax (mem_dedupFirst.mp hax) ad had
      simp [successfulMeasurement, had, he, Except.toOption]
  refine ⟨measure_eq_error_allfail config registry options wallClock hres hA,
    failureEntries_ne_nil config registry hres hA, ?_⟩
  intro err herr
  obtain ⟨b, _, hfe⟩ := List.mem_filterMap.mp herr
  cases had : availableAdapterFor registry b with
  | none => simp [failureEntry, had] at hfe
  | some ad =>
    simp only [failureEntry, had] at hfe
    cases hmm : ad.measure config.targetPath b with
    | ok v => rw [hmm] at hfe; simp at hfe
    | error e =>
      rw [hmm] at hfe
      have herr' : ({ axisId := b, adapterId := ad.id, error := e }
          : AxisOrchestrationError) = err := by
        simpa using hfe
      subst herr'
      exact ⟨ad, had, rfl, hmm⟩

/-- C3 (witness): one available adapter whose measurement fails. -/
theorem c3_witness :
    measure demoConfig { adapters := [failingAdapter] } demoOptions demoClock =
      Except.error
        { message := "All adapters failed during measurement",
          axisErrors := (dedupFirst (resolveRequestedAxes demoConfig)).filterMap
            (failureEntry { adapters := [failingAdapter] } demoConfig.targetPath) } ∧
    (dedupFirst (resolveRequestedAxes demoConfig)).filterMap
        (failureEntry { adapters := [failingAdapter] } demoConfig.targetPath) ≠ [] ∧
    ∀ err ∈ (dedupFirst (resolveRequestedAxes demoConfig)).filterMap
        (failureEntry { adapters := [failingAdapter] } demoConfig.targetPath),
      ∃ ad, availableAdapterFor { adapters := [failingAdapter] } err.axisId = some ad ∧
        ad.id = err.adapterId ∧
        ad.measure demoConfig.targetPath err.axisId = Except.error err.error :=
  c3_all_adapters_failed_error demoConfig { adapters := [failingAdapter] }
    demoOptions demoClock
    ⟨.size, by decide, Option.ne_none_iff_exists'.mpr ⟨failingAdapter, rfl⟩⟩
    (by
      intro ax hax ad had
      have hax' : ax = .size := by
        rw [show resolveRequestedAxes demoConfig = [.size] from rfl] at hax
        simpa using hax
      subst hax'
      have had' : some failingAdapter = some ad := had
      cases had'
      exact ⟨{ adapterId := "broken-tool", message := "exit status 2" }, rfl⟩)

/-- C5: every successful report's warnings are exactly one warning per
unavailable axis (naming the axis), followed by one warning per adapter
failure (naming the adapter id and underlying message), the unavailable
group first, each group in processing order. -/
theorem c5_warnings_structure (config : MeasurementConfig)
    (registry : AdapterRegistry) (options : MeasureOptions) (wallClock : Unit → String)
    (rep : MeasurementReport)
    (h : measure config registry options wallClock = Except.ok rep) :
    rep.warnings =
      ((resolveRequestedAxes config).filter
          (fun ax => (availableAdapterFor registry ax).isNone)).map
        (fun axisId =>
          { axisId := axisId,
            message := "No available adapter for axis \"" ++ axisIdString axisId ++ "\"" })
      ++ ((dedupFirst (resolveRequestedAxes config)).filterMap
          (failureEntry registry config.targetPath)).map
        (fun e =>
          { axisId := e.axisId,
            message := "Adapter \"" ++ e.adapterId ++ "\" failed: " ++ e.error.message }) := by
  rw [(measure_ok_inv config registry options wallClock rep h).2]

/-- C5 (witness): the mixed-outcome scenario has one unavailable-axis
warning followed by one failure warning. -/
theorem c5_witness :
    multiReport.warnings =
      ((resolveRequestedAxes multiConfig).filter
          (fun ax => (availableAdapterFor multiRegistry ax).isNone)).map
        (fun axisId =>
          { axisId := axisId,
            message := "No available adapter for axis \"" ++ axisIdString axisId ++ "\"" })
      ++ ((dedupFirst (resolveRequestedAxes multiConfig)).filterMap
          (failureEntry multiRegistry multiConfig.targetPath)).map
        (fun e =>
          { axisId := e.axisId,
            message := "Adapter \"" ++ e.adapterId ++ "\" failed: " ++ e.error.message }) :=
  c5_warnings_structure multiConfig multiRegistry demoOptions demoClock multiReport rfl

/-- C8: assuming adapters tag measurements with the asked axis, no axis id
appears twice in a successful report's axes list, even when the requested
axis list contains duplicates. -/
theorem c8_no_duplicate_axes (config : MeasurementConfig)
    (registry : AdapterRegistry) (options : MeasureOptions) (wallClock : Unit → String)
    (rep : MeasurementReport)
    (htag : ∀ ad ∈ registry.adapters, ∀ ax ∈ resolveRequestedAxes config,
      ∀ m, ad.measure config.targetPath ax = Except.ok m → m.axisId = ax)
    (h : measure config registry options wallClock = Except.ok rep) :
    (rep.axes.map AxisMeasurement.axisId).Nodup := by
  rw [(measure_ok_inv config registry options wallClock rep h).2]
  refine List.Sublist.nodup ?_ (nodup_dedupFirst (resolveRequestedAxes config))
  refine filterMap_map_sublist _ _ _ ?_
  intro b hb m hsm
  exact successfulMeasurement_tagged config registry htag (mem_dedupFirst.mp hb) hsm

/-- C8 (witness): the duplicate-request scenario yields a report whose axis
ids are without duplicates. -/
theorem c8_witness : (dupEchoReport.axes.map AxisMeasurement.axisId).Nodup :=
  c8_no_duplicate_axes dupConfig { adapters := [echoAdapter] } demoOptions demoClock
    dupEchoReport
    (by
      intro ad had ax hax m h
      have hade : ad = echoAdapter := by simpa using had
      subst hade
      have : Except.ok ({ axisId := ax, summary := [], files := [] } : AxisMeasurement)
          = Except.ok m := h
      cases this
      rfl)
    rfl

/-- C10: the no-adapters early-out branch is unreachable; every error
`measure` returns either is the all-failed sentinel or names the
unavailable axes, and an error with an empty per-axis list always takes the
naming form over the (never empty) requested axes. -/
theorem c10_no_adapters_branch_unreachable (config : MeasurementConfig)
    (registry : AdapterRegistry) (options : MeasureOptions) (wallClock : Unit → String)
    (e : OrchestrationError)
    (h : measure config registry options wallClock = Except.error e) :
    e.message ≠ "No axes requested and no adapters registered" ∧
    (e.axisErrors = [] →
      resolveRequestedAxes config ≠ [] ∧
      e.message = "No available adapters for requested axes: "
        ++ String.intercalate ", " ((resolveRequestedAxes config).map axisIdString)) := by
  by_cases hall : ∀ ax ∈ resolveRequestedAxes config, availableAdapterFor registry ax = none
  · rw [measure_eq_error_empty config registry options wallClock hall] at h
    injection h with he
    subst he
    exact ⟨unavailable_message_ne _, fun _ => ⟨resolveRequestedAxes_ne_nil config, rfl⟩⟩
  · push_neg at hall
    by_cases hA : (dedupFirst (resolveRequestedAxes config)).filterMap
        (successfulMeasurement registry config.targetPath) = []
    · rw [measure_eq_error_allfail config registry options wallClock hall hA] at h
      injection h with he
      subst he
      refine ⟨by
        show "All adapters failed during measurement"
          ≠ "No axes requested and no adapters registered"
        decide, ?_⟩
      intro h0
      exact absurd h0 (failureEntries_ne_nil config registry hall hA)
    · rw [measure_eq_ok config registry options wallClock hA] at h
      exact Except.noConfusion h

/-- The error the all-unavailable scenario produces. -/
def unavailableSizeError : OrchestrationError :=
  { message := "No available adapters for requested axes: "
      ++ String.intercalate ", " ((resolveRequestedAxes demoConfig).map axisIdString),
    axisErrors := [] }

/-- C10 (witness): the all-unavailable scenario's error message is not the
no-adapters message and takes the naming form. -/
theorem c10_witness :
    unavailableSizeError.message ≠ "No axes requested and no adapters registered" ∧
    (unavailableSizeError.axisErrors = [] →
      resolveRequestedAxes demoConfig ≠ [] ∧
      unavailableSizeError.message = "No available adapters for requested axes: "
        ++ String.intercalate ", "
          ((resolveRequestedAxes demoConfig).map axisIdString)) :=
  c10_no_adapters_branch_unreachable demoConfig { adapters := [offlineAdapter] }
    demoOptions demoClock unavailableSizeError rfl

/-- C4: per axis, resolution scans the registry in registration order and
selects the first available supporting adapter; with two registered
adapters for the same axis, the first unavailable and the second available,
the second is selected and its measurement appears in the report. -/
theorem c4_fallback_second_adapter (a₁ a₂ : ToolAdapter) (ax : AxisId)
    (config : MeasurementConfig) (options : MeasureOptions) (wallClock : Unit → String)
    (m : AxisMeasurement) (reason v : String)
    (h1 : ax ∈ a₁.supportedAxes) (h2 : ax ∈ a₂.supportedAxes)
    (h3 : a₁.checkAvailability = ToolAvailability.unavailable reason)
    (h4 : a₂.checkAvailability = ToolAvailability.available v)
    (h5 : a₂.measure config.targetPath ax = Except.ok m)
    (h6 : config.axes = [ax]) :
    (∀ (r : AdapterRegistry) (b : AxisId),
        availableAdapterFor r b =
          r.adapters.find? (fun a => decide (b ∈ a.supportedAxes) && isAvailable a)) ∧
    availableAdapterFor { adapters := [a₁, a₂] } ax = some a₂ ∧
    ∃ rep, measure config { adapters := [a₁, a₂] } options wallClock = Except.ok rep ∧
      rep.axes = [m] := by
  have hcand : getAdaptersForAxis { adapters := [a₁, a₂] } ax = [a₁, a₂] := by
    simp [getAdaptersForAxis, h1, h2]
  have hsel : availableAdapterFor { adapters := [a₁, a₂] } ax = some a₂ := by
    rw [availableAdapterFor, hcand]
    simp only [firstAvailable, h3, h4]
  have hreq : resolveRequestedAxes config = [ax] := by
    rw [resolveRequestedAxes, h6]
    simp
  have hsm : successfulMeasurement { adapters := [a₁, a₂] } config.targetPath ax
      = some m := by
    simp only [successfulMeasurement, hsel, h5, Except.toOption]
  have hA : (dedupFirst (resolveRequestedAxes config)).filterMap
      (successfulMeasurement { adapters := [a₁, a₂] } config.targetPath) = [m] := by
    rw [hreq]
    simp [dedupFirst, hsm]
  refine ⟨availableAdapterFor_eq_find?, hsel,
    _, measure_eq_ok config { adapters := [a₁, a₂] } options wallClock (by
      rw [hA]; exact List.cons_ne_nil m []), hA⟩

/-- C4 (witness): the unavailable size adapter followed by the available scc
stub; the second is selected and its measurement reported. -/
theorem c4_witness :
    (∀ (r : AdapterRegistry) (b : AxisId),
        availableAdapterFor r b =
          r.adapters.find? (fun a => decide (b ∈ a.supportedAxes) && isAvailable a)) ∧
    availableAdapterFor { adapters := [offlineAdapter, sizeAdapter] } .size
        = some sizeAdapter ∧
    ∃ rep, measure demoConfig { adapters := [offlineAdapter, sizeAdapter] }
        demoOptions demoClock = Except.ok rep ∧
      rep.axes = [sizeMeasurement] :=
  c4_fallback_second_adapter offlineAdapter sizeAdapter .size demoConfig
    demoOptions demoClock sizeMeasurement "not installed" "3.3.0"
    (by decide) (by decide) rfl rfl rfl rfl

/-! Stable-sort theory for `stableSortByCompare`, the embedding of the
ECMAScript stable `sort` used by `sortFiles`. -/

theorem insertByCompare_perm {α : Type} (c : α → α → Int) (a : α) :
    ∀ l : List α, (insertByCompare c a l).Perm (a :: l) := by
  intro l
  induction l with
  | nil => exact List.Perm.refl _
  | cons b rest ih =>
    by_cases h : c a b ≤ 0
    · rw [insertByCompare, if_pos h]
    · rw [insertByCompare, if_neg h]
      exact (ih.cons b).trans (List.Perm.swap a b rest)

theorem mem_insertByCompare {α : Type} {c : α → α → Int} {a x : α} {l : List α} :
    x ∈ insertByCompare c a l ↔ x = a ∨ x ∈ l := by
  rw [(insertByCompare_perm c a l).mem_iff, List.mem_cons]

theorem stableSortByCompare_perm {α : Type} (c : α → α → Int) :
    ∀ l : List α, (stableSortByCompare c l).Perm l := by
  intro l
  induction l with
  | nil => exact List.Perm.refl _
  | cons a rest ih =>
    exact (insertByCompare_perm c a _).trans (ih.cons a)

theorem insertByCompare_pairwise {α : Type} {c : α → α → Int}
    (htrans : ∀ x y z, c x y ≤ 0 → c y z ≤ 0 → c x z ≤ 0)
    (htotal : ∀ x y, c x y ≤ 0 ∨ c y x ≤ 0) (a : α) :
    ∀ l : List α, l.Pairwise (fun x y => c x y ≤ 0) →
      (insertByCompare c a l).Pairwise (fun x y => c x y ≤ 0) := by
  intro l
  induction l with
  | nil => intro _; simp [insertByCompare]
  | cons b rest ih =>
    intro h
    rcases List.pairwise_cons.mp h with ⟨hb, hrest⟩
    by_cases hab : c a b ≤ 0
    · rw [insertByCompare, if_pos hab]
      refine List.pairwise_cons.mpr ⟨?_, h⟩
      intro y hy
      rcases List.mem_cons.mp hy with rfl | hy
      · exact hab
      · exact htrans a b y hab (hb y hy)
    · rw [insertByCompare, if_neg hab]
      refine List.pairwise_cons.mpr ⟨?_, ih hrest⟩
      intro y hy
      rcases mem_insertByCompare.mp hy with rfl | hy
      · rcases htotal y b with hyb | hby
        · exact absurd hyb hab
        · exact hby
      · exact hb y hy

theorem stableSortByCompare_pairwise {α : Type} {c : α → α → Int}
    (htrans : ∀ x y z, c x y ≤ 0 → c y z ≤ 0 → c x z ≤ 0)
    (htotal : ∀ x y, c x y ≤ 0 ∨ c y x ≤ 0) :
    ∀ l : List α, (stableSortByCompare c l).Pairwise (fun x y => c x y ≤ 0) := by
  intro l
  induction l with
  | nil => simp [stableSortByCompare]
  | cons a rest ih => exact insertByCompare_pairwise htrans htotal a _ ih

theorem insertByCompare_of_le {α : Type} {c : α → α → Int} {a : α} :
    ∀ {l : List α}, (∀ b ∈ l, c a b ≤ 0) → insertByCompare c a l = a :: l := by
  intro l h
  cases l with
  | nil => rfl
  | cons b rest => rw [insertByCompare, if_pos (h b (List.mem_cons_self _ _))]

theorem stableSortByCompare_of_all {α : Type} {c : α → α → Int} :
    ∀ l : List α, (∀ x ∈ l, ∀ y ∈ l, c x y ≤ 0) → stableSortByCompare c l = l := by
  intro l
  induction l with
  | nil => intro _; rfl
  | cons a rest ih =>
    intro h
    have hrest := ih fun x hx y hy =>
      h x (List.mem_cons_of_mem _ hx) y (List.mem_cons_of_mem _ hy)
    rw [stableSortByCompare, hrest, insertByCompare_of_le]
    intro b hb
    exact h a (List.mem_cons_self _ _) b (List.mem_cons_of_mem _ hb)

theorem filter_insertByCompare_neg {α : Type} {c : α → α → Int} {p : α → Bool}
    {a : α} (hpa : p a = false) :
    ∀ l : List α, (insertByCompare c a l).filter p = l.filter p := by
  intro l
  induction l with
  | nil => simp [insertByCompare, hpa]
  | cons b rest ih =>
    by_cases h : c a b ≤ 0
    · rw [insertByCompare, if_pos h, List.filter_cons_of_neg (by simp [hpa])]
    · rw [insertByCompare, if_neg h]
      cases hpb : p b
      · rw [List.filter_cons_of_neg (by simp [hpb]),
          List.filter_cons_of_neg (by simp [hpb]), ih]
      · rw [List.filter_cons_of_pos hpb, List.filter_cons_of_pos hpb, ih]

theorem filter_insertByCompare_pos {α : Type} {c : α → α → Int} {p : α → Bool}
    {a : α} (hpa : p a = true) :
    ∀ l : List α, (∀ b ∈ l, p b = true ↔ c a b ≤ 0) →
      (insertByCompare c a l).filter p = a :: l.filter p := by
  intro l
  induction l with
  | nil => intro _; simp [insertByCompare, hpa]
  | cons b rest ih =>
    intro hstop
    by_cases h : c a b ≤ 0
    · have hpb : p b = true := (hstop b (List.mem_cons_self _ _)).mpr h
      rw [insertByCompare, if_pos h, List.filter_cons_of_pos hpa,
        List.filter_cons_of_pos hpb]
    · have hpb : p b = false := by
        cases hpb : p b
        · rfl
        · exact absurd ((hstop b (List.mem_cons_self _ _)).mp hpb) h
      rw [insertByCompare, if_neg h, List.filter_cons_of_neg (by simp [hpb]),
        List.filter_cons_of_neg (by simp [hpb])]
      exact ih fun b hb => hstop b (List.mem_cons_of_mem _ hb)

theorem filter_stableSortByCompare {α : Type} {c : α → α → Int} {p : α → Bool}
    (hglob : ∀ x y, p x = true → (p y = true ↔ c x y ≤ 0)) :
    ∀ l : List α, (stableSortByCompare c l).filter p = l.filter p := by
  intro l
  induction l with
  | nil => rfl
  | cons a rest ih =>
    cases hpa : p a
    · rw [stableSortByCompare, filter_insertByCompare_neg hpa, ih,
        List.filter_cons_of_neg (by simp [hpa])]
    · rw [stableSortByCompare,
        filter_insertByCompare_pos hpa _ (fun b _ => hglob a b hpa), ih,
        List.filter_cons_of_pos hpa]

theorem fileCompare_trans (metricId : String) (x y z : FileMeasurement)
    (h1 : fileCompare metricId x y ≤ 0) (h2 : fileCompare metricId y z ≤ 0) :
    fileCompare metricId x z ≤ 0 := by
  unfold fileCompare at *
  cases hx : findMetric metricId x <;> cases hy : findMetric metricId y <;>
    cases hz : findMetric metricId z <;> simp_all
  all_goals omega

theorem fileCompare_total (metricId : String) (x y : FileMeasurement) :
    fileCompare metricId x y ≤ 0 ∨ fileCompare metricId y x ≤ 0 := by
  unfold fileCompare
  cases hx : findMetric metricId x <;> cases hy : findMetric metricId y <;> simp
  all_goals omega

theorem fileCompare_missing (metricId : String) (x y : FileMeasurement)
    (hx : ((findMetric metricId x).isNone : Bool) = true) :
    ((findMetric metricId y).isNone : Bool) = true ↔ fileCompare metricId x y ≤ 0 := by
  unfold fileCompare
  cases hxm : findMetric metricId x <;> cases hym : findMetric metricId y <;>
    simp_all

/-- C6: `limitFiles` leaves the report frame unchanged and, per axis,
truncates to the first `n` files and records the pre-truncation count
exactly when the file list exceeds `n`, returning the axis entirely
unchanged otherwise. -/
theorem c6_limitFiles_truncation (report : MeasurementReport) (n : Nat) :
    (limitFiles report n).targetPath = report.targetPath ∧
    (limitFiles report n).timestamp = report.timestamp ∧
    (limitFiles report n).warnings = report.warnings ∧
    List.Forall₂ (fun axis axis' =>
        (axis.files.length ≤ n → axis' = axis) ∧
        (n < axis.files.length →
          axis'.files = axis.files.take n ∧
          axis'.files.length = n ∧
          axis'.fileTotalCount = some axis.files.length ∧
          axis'.axisId = axis.axisId ∧
          axis'.summary = axis.summary))
      report.axes (limitFiles report n).axes := by
  refine ⟨rfl, rfl, rfl, ?_⟩
  show List.Forall₂ _ report.axes (report.axes.map _)
  rw [List.forall₂_map_right_iff]
  refine List.forall₂_same.mpr ?_
  intro axis _
  constructor
  · intro hle
    simp [hle]
  · intro hlt
    have hnle : ¬ axis.files.length ≤ n := by omega
    refine ⟨by simp [hnle], ?_, by simp [hnle], by simp [hnle], by simp [hnle]⟩
    simp only [if_neg hnle, List.length_take]
    omega

/-- C7: `sortFiles` leaves the report frame and each axis's other fields
unchanged and, per axis, permutes the files so that values of the named
metric descend, files lacking the metric come after all files that have it
in their original relative order, and an axis none of whose files has the
metric keeps its file order. -/
theorem c7_sortFiles_descending_stable (report : MeasurementReport) (metricId : String) :
    (sortFiles report metricId).targetPath = report.targetPath ∧
    (sortFiles report metricId).timestamp = report.timestamp ∧
    (sortFiles report metricId).warnings = report.warnings ∧
    List.Forall₂ (fun axis axis' =>
        axis'.axisId = axis.axisId ∧
        axis'.summary = axis.summary ∧
        axis'.fileTotalCount = axis.fileTotalCount ∧
        axis'.files.Perm axis.files ∧
        axis'.files.Pairwise (fun a b => ∀ x y,
          findMetric metricId a = some x → findMetric metricId b = some y →
            y.value ≤ x.value) ∧
        axis'.files.Pairwise (fun a b =>
          findMetric metricId a = none → findMetric metricId b = none) ∧
        axis'.files.filter (fun f => (findMetric metricId f).isNone)
          = axis.files.filter (fun f => (findMetric metricId f).isNone) ∧
        ((∀ f ∈ axis.files, findMetric metricId f = none) → axis'.files = axis.files))
      report.axes (sortFiles report metricId).axes := by
  refine ⟨rfl, rfl, rfl, ?_⟩
  show List.Forall₂ _ report.axes (report.axes.map _)
  rw [List.forall₂_map_right_iff]
  refine List.forall₂_same.mpr ?_
  intro axis _
  have hpair := stableSortByCompare_pairwise (fileCompare_trans metricId)
    (fileCompare_total metricId) axis.files
  refine ⟨rfl, rfl, rfl, stableSortByCompare_perm _ _, ?_, ?_, ?_, ?_⟩
  · refine hpair.imp ?_
    intro a b hab x y hx hy
    simp only [fileCompare, hx, hy] at hab
    omega
  · refine hpair.imp ?_
    intro a b hab ha
    cases hb : findMetric metricId b with
    | none => rfl
    | some v =>
      simp only [fileCompare, ha, hb] at hab
      omega
  · exact filter_stableSortByCompare
      (fun x y hx => fileCompare_missing metricId x y hx) axis.files
  · intro hall
    refine stableSortByCompare_of_all axis.files ?_
    intro x hx y hy
    simp only [fileCompare, hall x hx, hall y hy]
    omega

end CodePulse
